import Mathlib

/-!
Verification development for the mlpack CLI binding
(`src/mlpack/bindings/cli/parse_command_line.hpp`), the image resizing
utility (`src/mlpack/core/data/image_resize_crop.hpp`) and the
`linear_regression_predict` binding
(`src/mlpack/methods/linear_regression/linear_regression_predict_main.cpp`).

The C++ sources are shallowly embedded: the stateful registry becomes
explicit state passing over a list of `ParamData` records, `Log::Fatal`
and `exit(0)` become constructors of an explicit `Outcome` type, and the
numeric content of `double` parameters is carried as exact rationals.
-/

deriving instance DecidableEq for Except

namespace Mlpack

/-- The value stored in a registry entry (`ParamData::value` holds a
type-erased value in the C++; the claims only exercise booleans, strings
and doubles, whose numeric content we carry as exact rationals). -/
inductive Value where
  | vBool (b : Bool)
  | vInt (i : Int)
  | vDouble (q : ℚ)
  | vString (s : String)
deriving DecidableEq, Repr

/-- One registry entry.  Mirrors `util::ParamData` as described by the data
model: canonical name, type tag (`tname`), description, single-character
short alias (`""` when there is none), `required` flag, `wasPassed` flag and
the stored (default) value. -/
structure ParamData where
  name : String
  tname : String
  desc : String
  shortAlias : String
  required : Bool
  wasPassed : Bool
  value : Value
deriving DecidableEq, Repr

/-- An option definition handed to the underlying argument-parsing library
(`AddToPO` adds one per registry entry): the external option name, the
short alias, and whether the option consumes a value token
(boolean flags do not). -/
structure OptionDef where
  extName : String
  shortAlias : String
  takesValue : Bool
deriving DecidableEq, Repr

/-- One occurrence of an option recognized on the command line: the
external option name it resolved to and the raw value tokens attached to
this occurrence. -/
structure ParsedOption where
  name : String
  values : List String
deriving DecidableEq, Repr

/-- Modelled from the spec: `MapParameterName`, the dispatch-table
operation that computes "the external option name used on the command line
(which may differ from the canonical name)".  The operation itself is not
among the shown sources; per the spec, file-backed parameter types (matrix
and model parameters, which the CLI receives as file names) get a `_file`
suffix and all other types keep the canonical name. -/
def mapParameterName (d : ParamData) : String :=
  if d.tname = "arma::mat" || d.tname = "arma::vec" || d.tname = "arma::rowvec"
      || d.tname = "model" then
    d.name ++ "_file"
  else
    d.name

/-- The option definitions built from the registry (the first loop of
`ParseCommandLine`, which calls `AddToPO` and `MapParameterName` for every
registered parameter). -/
def optionDefs (reg : List ParamData) : List OptionDef :=
  reg.map (fun d =>
    { extName := mapParameterName d
      shortAlias := d.shortAlias
      takesValue := d.tname ≠ "bool" })

/-- Modelled from the spec: the external argument-parsing library
(consumed via `CLI::App::parse`; not part of this repository), which per
the spec "tokenizes argv into named options/values".  A `--name` token must
match a defined external option name and a `-c` token a defined single
character alias; an option that takes a value consumes the following
token; anything else is a parse error (reported by the library as an
exception).  `args` is the argument vector without the program name
(`argv[0]`), which the library skips. -/
def externalParse (defs : List OptionDef) : List String → Except String (List ParsedOption)
  | [] => .ok []
  | tok :: rest =>
    match tok.data with
    | '-' :: '-' :: cs =>
      match defs.find? (fun od => od.extName = String.mk cs) with
      | none => .error ("The following argument was not expected: " ++ tok)
      | some od =>
        if od.takesValue then
          match rest with
          | [] => .error ("Argument missing for option: " ++ tok)
          | v :: rest2 =>
            (externalParse defs rest2).map (fun l => ⟨od.extName, [v]⟩ :: l)
        else
          (externalParse defs rest).map (fun l => ⟨od.extName, []⟩ :: l)
    | ['-', c] =>
      match defs.find? (fun od => od.shortAlias = String.mk [c] && od.shortAlias ≠ "") with
      | none => .error ("The following argument was not expected: " ++ tok)
      | some od =>
        if od.takesValue then
          match rest with
          | [] => .error ("Argument missing for option: " ++ tok)
          | v :: rest2 =>
            (externalParse defs rest2).map (fun l => ⟨od.extName, [v]⟩ :: l)
        else
          (externalParse defs rest).map (fun l => ⟨od.extName, []⟩ :: l)
    | _ => .error ("The following argument was not expected: " ++ tok)

/-- The external names of the options the parsing library recognized as
supplied (one entry per occurrence). -/
def suppliedNames (parsed : List ParsedOption) : List String :=
  parsed.map (fun p => p.name)

/-- Mark one registry entry as passed when its external name was supplied.
Mirrors the loop at `parse_command_line.hpp:115-123`: `wasPassed` is set to
`true`, and nothing else changes, because the `SetParam` dispatch call that
would copy the parsed value into the entry is commented out in the source
(lines 121-122). -/
def markIf (supplied : List String) (d : ParamData) : ParamData :=
  if supplied.contains (mapParameterName d) then { d with wasPassed := true } else d

/-- Apply `markIf` across the registry (the whole marking loop). -/
def markPassed (reg : List ParamData) (supplied : List String) : List ParamData :=
  reg.map (markIf supplied)

/-- Modelled from the spec: name resolution used by `CMD::HasParam` /
`CMD::GetParam` (the `CMD` singleton is not among the shown sources).  Per
the spec it "resolves the given string via alias table first", then looks
the canonical name up in the registry. -/
def resolveParam (reg : List ParamData) (s : String) : Option ParamData :=
  match reg.find? (fun d => d.shortAlias = s && d.shortAlias ≠ "") with
  | some d => some d
  | none => reg.find? (fun d => d.name = s)

/-- Modelled from the spec: `CMD::HasParam` — true iff the named (or
alias-resolved) parameter was passed; an unresolvable name is an
"unknown parameter" error (fatal in the C++). -/
def hasParamE (reg : List ParamData) (s : String) : Except String Bool :=
  match resolveParam reg s with
  | none => .error ("Unknown parameter: " ++ s ++ ".")
  | some d => .ok d.wasPassed

/-- Modelled from the spec: `CMD::GetParam<std::string>` — returns the
stored value of the resolved entry. -/
def getParamString (reg : List ParamData) (s : String) : Except String String :=
  match resolveParam reg s with
  | none => .error ("Unknown parameter: " ++ s ++ ".")
  | some d =>
    match d.value with
    | .vString str => .ok str
    | _ => .error ("Parameter " ++ s ++ " is not a string.")

/-- Modelled from the spec: `CMD::GetParam<double>` — returns the stored
value of the resolved entry. -/
def getParamDouble (reg : List ParamData) (s : String) : Except String ℚ :=
  match resolveParam reg s with
  | none => .error ("Unknown parameter: " ++ s ++ ".")
  | some d =>
    match d.value with
    | .vDouble q => .ok q
    | _ => .error ("Parameter " ++ s ++ " is not a double.")

/-- What `ParseCommandLine` prints before an `exit(0)`: the program name
and library version (line 140), the general help (`PrintHelp()`), or the
detailed help for one named parameter (`PrintHelp(str)`; the printing
routine itself lives in `print_help.hpp`, outside the shown sources, so the
output is kept symbolic). -/
inductive ExitOutput where
  | versionInfo
  | generalHelp
  | paramHelp (param : String)
deriving DecidableEq, Repr

/-- The outcome of one `ParseCommandLine` run: a fatal, user-visible error
(`Log::Fatal`, which terminates/throws), a successful early termination
(`exit(0)` after printing), or a normal return carrying the updated
registry. -/
inductive Outcome where
  | fatal (msg : String)
  | exit (out : ExitOutput)
  | ok (reg : List ParamData)
deriving DecidableEq, Repr

/-- The first registered parameter that is required but was not counted by
the parsing library under its external name (the validation loop at
`parse_command_line.hpp:183-199`, which iterates the registry and checks
`app.count(boostName)`). -/
def firstMissingRequired (reg : List ParamData) (supplied : List String) :
    Option ParamData :=
  reg.find? (fun d => d.required && !(supplied.contains (mapParameterName d)))

/-- Everything `ParseCommandLine` does after a successful parse, starting
from the registry in which the supplied options have been marked
(`parse_command_line.hpp:134-199`): the meta options `version`, `help` and
`info` in that priority order, then the `verbose` check (which only raises
verbosity, but still resolves the name), then the required-option
validation. -/
def metaAndRequired (reg1 : List ParamData) (supplied : List String) : Outcome :=
  match hasParamE reg1 "version" with
  | .error e => .fatal e
  | .ok true => .exit .versionInfo
  | .ok false =>
    match hasParamE reg1 "help" with
    | .error e => .fatal e
    | .ok true => .exit .generalHelp
    | .ok false =>
      match hasParamE reg1 "info" with
      | .error e => .fatal e
      | .ok true =>
        match getParamString reg1 "info" with
        | .error e => .fatal e
        | .ok str => if str ≠ "" then .exit (.paramHelp str) else .exit .generalHelp
      | .ok false =>
        match hasParamE reg1 "verbose" with
        | .error e => .fatal e
        | .ok _ =>
          match firstMissingRequired reg1 supplied with
          | some d =>
            .fatal ("Required option --" ++ mapParameterName d ++ " is undefined.")
          | none => .ok reg1

/-- `ParseCommandLine` (`parse_command_line.hpp:37-200`): build the option
definitions, run the external parse inside a catch-all that converts any
parse error into a fatal error (lines 105-109), mark the supplied options
as passed (the duplicate-detection block at lines 67-102 is commented out
in the source, so duplicates are not rejected here, and the `SetParam` call
at lines 121-122 is commented out, so parsed values are never copied into
the registry), then handle the meta options and validate required options.
`args` is the argument vector without the program name. -/
def parseCommandLine (reg : List ParamData) (args : List String) : Outcome :=
  match externalParse (optionDefs reg) args with
  | .error e => .fatal ("Caught exception from parsing command line: " ++ e)
  | .ok parsed => metaAndRequired (markPassed reg (suppliedNames parsed)) (suppliedNames parsed)

/-- The registry a normal return carries, if any. -/
def Outcome.registry? : Outcome → Option (List ParamData)
  | .ok reg => some reg
  | _ => none

/-!
Concrete registries.

`defaultParams` is what `parse_command_line.hpp:26-31` registers in every
program that includes the header: `info` (string, no alias), `verbose`
(flag, alias `v`) and `version` (flag, no alias).  The registration of the
`help` flag at line 27 is commented out in the source.

`testBaseParams` is what the test suite's `AddRequiredCMDOptions`
(`cli_test.cpp:55-68`) registers before each test: `help` (flag, alias
`h`), `info` (string, no alias), `verbose` (flag, alias `v`) and `version`
(flag, alias `V`).
-/

/-- `PARAM_STRING_IN("info", "Print help on a specific option.", "", "")`
(`parse_command_line.hpp:28`). -/
def infoDefaultParam : ParamData :=
  ⟨"info", "std::string", "Print help on a specific option.", "", false, false, .vString ""⟩

/-- `PARAM_FLAG("verbose", ..., "v")` (`parse_command_line.hpp:29`). -/
def verboseDefaultParam : ParamData :=
  ⟨"verbose", "bool",
   "Display informational messages and the full list of parameters and timers at the end of execution.",
   "v", false, false, .vBool false⟩

/-- `PARAM_FLAG("version", ..., "")` (`parse_command_line.hpp:31`). -/
def versionDefaultParam : ParamData :=
  ⟨"version", "bool", "Display the version of mlpack.", "", false, false, .vBool false⟩

/-- The default registrations of `parse_command_line.hpp:26-31` (`help` is
commented out there and hence absent). -/
def defaultParams : List ParamData :=
  [infoDefaultParam, verboseDefaultParam, versionDefaultParam]

/-- `CMDOption<bool> help(false, "help", "Default help info.", "h", "bool")`
(`cli_test.cpp:60`). -/
def helpTestParam : ParamData :=
  ⟨"help", "bool", "Default help info.", "h", false, false, .vBool false⟩

/-- `CMDOption<string> info(...)` (`cli_test.cpp:61-62`). -/
def infoTestParam : ParamData :=
  ⟨"info", "std::string", "Get help on a specific module or option.", "",
   false, false, .vString ""⟩

/-- `CMDOption<bool> verbose(...)` (`cli_test.cpp:63-65`). -/
def verboseTestParam : ParamData :=
  ⟨"verbose", "bool",
   "Display information messages and the full list of parameters and timers at the end of execution.",
   "v", false, false, .vBool false⟩

/-- `CMDOption<bool> version(...)` (`cli_test.cpp:66-67`). -/
def versionTestParam : ParamData :=
  ⟨"version", "bool", "Display the version of mlpack.", "V", false, false, .vBool false⟩

/-- The registry the CLI test suite starts every test from. -/
def testBaseParams : List ParamData :=
  [helpTestParam, infoTestParam, verboseTestParam, versionTestParam]

/-- `PARAM_DOUBLE_IN("double", "Test double", "d", 0.0)`
(`cli_test.cpp:790`, the `DoubleParamTest` registration). -/
def doubleTestParam : ParamData :=
  ⟨"double", "double", "Test double", "d", false, false, .vDouble 0⟩

/-- `PARAM_DOUBLE_IN_REQ("double", "Required test double", "d")`
(`cli_test.cpp:809`, the `RequiredOptionTest` registration). -/
def requiredDoubleParam : ParamData :=
  ⟨"double", "double", "Required test double", "d", true, false, .vDouble 0⟩

/-- `PARAM_FLAG("test", "test", "t")` (`cli_test.cpp:113`, the
`TestDuplicateFlag` registration). -/
def testFlagParam : ParamData :=
  ⟨"test", "bool", "test", "t", false, false, .vBool false⟩

/-!
`ResizeImages` (`image_resize_crop.hpp:46-136`).

The claims about this function concern matrix dimensions, the `ImageInfo`
update and the initialization of the `stbir_pixel_layout` local, so the
embedding tracks matrix dimensions (the resampled pixel values are computed
by the external stb library and are irrelevant to every claim).
-/

/-- The element type `eT` the template is instantiated at.  The source
branches on `std::is_same<eT, float>` and `std::is_same<eT, unsigned char>`;
every other element type takes the conversion branch. -/
inductive ElemType where
  | uchar
  | float
  | other
deriving DecidableEq, Repr

/-- The dimensions of an `arma::Mat`. -/
structure MatDims where
  n_rows : Nat
  n_cols : Nat
deriving DecidableEq, Repr

/-- `arma::Mat::n_elem`. -/
def MatDims.n_elem (m : MatDims) : Nat := m.n_rows * m.n_cols

/-- A default-constructed (empty) `arma::Mat`. -/
def MatDims.empty : MatDims := ⟨0, 0⟩

/-- `data::ImageInfo`: width, height, channel count. -/
structure ImageInfo where
  width : Nat
  height : Nat
  channels : Nat
deriving DecidableEq, Repr

/-- The two `stbir_pixel_layout` values the source can assign
(`image_resize_crop.hpp:80-88`). -/
inductive PixelLayout where
  | oneChannel
  | rgb
deriving DecidableEq, Repr

/-- The value of the local `stbir_pixel_layout channels` after the
assignment chain at `image_resize_crop.hpp:80-88`: it is assigned only when
`info.Channels()` is `1` or `3`; for every other channel count the local
stays uninitialized, which we model as `none`. -/
def pixelLayoutFor (channels : Nat) : Option PixelLayout :=
  if channels = 1 then some .oneChannel
  else if channels = 3 then some .rgb
  else none

/-- The outcome of `ResizeImages`: a fatal error from the dimension check,
or the final `images` dimensions and updated `info`, together with whether
the per-column loop read the (possibly uninitialized) pixel-layout local
(`uninitLayoutRead` is `true` exactly when the loop body ran at least once
while the local was never assigned). -/
inductive ResizeOutcome where
  | fatal (msg : String)
  | ok (images : MatDims) (info : ImageInfo) (uninitLayoutRead : Bool)
deriving DecidableEq, Repr

/-- `ResizeImages` (`image_resize_crop.hpp:46-136`), dimension-level data
flow:
* the dimension check (lines 55-78): one column compares `n_elem`, several
  columns compare `n_rows` against `Width()*Height()*Channels()`;
* the pixel-layout assignment chain (lines 80-88);
* `resizedFloatImages` is sized to `newDimension x n_cols` when `eT` is
  `float`, otherwise `resizedImages` is (lines 92-100); the other matrix
  stays default-constructed (empty);
* the loop (lines 102-131) fills the sized matrix column by column, passing
  the pixel-layout local to the stb resampler each iteration;
* finally (line 133) `images = std::move(resizedImages)` — unconditionally
  the `unsigned char` matrix, even when `eT` is `float` and the resized
  data was written to `resizedFloatImages` — and `info` gets the new width
  and height (lines 134-135). -/
def resizeImages (eT : ElemType) (images : MatDims) (info : ImageInfo)
    (newWidth newHeight : Nat) : ResizeOutcome :=
  if images.n_cols = 1 ∧ images.n_elem ≠ info.width * info.height * info.channels then
    .fatal "Dimensions mismatch. ResizeImages(): the number of pixels is not equal to the dimension provided by Info."
  else if images.n_cols ≠ 1 ∧ images.n_rows ≠ info.width * info.height * info.channels then
    .fatal "Dimensions mismatch. ResizeImages(): In the case of several images, please check if all the images have the same dimensions already, if not, load each image in one column and recall this function."
  else
    let layout := pixelLayoutFor info.channels
    let newDimension := newWidth * newHeight * info.channels
    -- Lines 96-100: only one of the two result matrices is given a size.
    let _resizedFloatImages : MatDims :=
      if eT = .float then ⟨newDimension, images.n_cols⟩ else MatDims.empty
    let resizedImages : MatDims :=
      if eT = .float then MatDims.empty else ⟨newDimension, images.n_cols⟩
    -- The loop runs `images.n_cols` times and reads `layout` each time.
    let uninitRead := images.n_cols ≠ 0 && layout.isNone
    -- Line 133 moves `resizedImages` (never `resizedFloatImages`) into
    -- `images`; lines 134-135 update the info.
    .ok resizedImages ⟨newWidth, newHeight, info.channels⟩ uninitRead

/-!
The `linear_regression_predict` binding
(`linear_regression_predict_main.cpp:74-114`).

The `LinearRegression` model and `Predict` are not among the shown sources;
they are modelled from the binding's own description.
-/

/-- Modelled from the spec: a loaded `LinearRegression` model.  Its
`Parameters()` vector holds the intercept followed by one coefficient per
trained dimension, so the trained dimensionality is
`Parameters().n_elem - 1` (the quantity the binding compares against at
line 97). -/
structure LRModel where
  parameters : List ℚ
deriving DecidableEq, Repr

/-- A test matrix: `n_rows` regressor dimensions, one test point per
column. -/
structure TestMatrix where
  n_rows : Nat
  cols : List (List ℚ)
deriving DecidableEq, Repr

/-- Dot product of coefficient and regressor lists. -/
def dotList (a b : List ℚ) : ℚ := (List.zipWith (fun x y => x * y) a b).sum

/-- Modelled from the spec: `LinearRegression::Predict` on one test point
— the binding documents the prediction as `y' = X' * b`, the intercept plus
the coefficients applied to the regressors; `Predict` produces one response
per column and does not modify the model. -/
def lrPredictCol (m : LRModel) (col : List ℚ) : ℚ :=
  match m.parameters with
  | [] => 0
  | b0 :: bs => b0 + dotList bs col

/-- The body of the binding after both required parameters were supplied
(`linear_regression_predict_main.cpp:94-113`): move the test matrix out,
fatal if its row count differs from the model's `Parameters().n_elem - 1`,
otherwise predict one response per column and store the predictions.  The
returned pair carries the (unmodified) model and the stored
`output_predictions`. -/
def lrPredictBinding (lr : LRModel) (test : TestMatrix) :
    Except String (LRModel × List ℚ) :=
  if lr.parameters.length - 1 ≠ test.n_rows then
    .error ("The model was trained on " ++ toString (lr.parameters.length - 1)
      ++ "-dimensional data, but the test points are "
      ++ toString test.n_rows ++ "-dimensional!")
  else
    .ok (lr, test.cols.map (lrPredictCol lr))

/-!
Helper lemmas about the registry operations.
-/

theorem markIf_name (supplied : List String) (d : ParamData) :
    (markIf supplied d).name = d.name := by
  unfold markIf; split <;> rfl

theorem markIf_alias (supplied : List String) (d : ParamData) :
    (markIf supplied d).shortAlias = d.shortAlias := by
  unfold markIf; split <;> rfl

theorem markIf_required (supplied : List String) (d : ParamData) :
    (markIf supplied d).required = d.required := by
  unfold markIf; split <;> rfl

theorem markIf_mapName (supplied : List String) (d : ParamData) :
    mapParameterName (markIf supplied d) = mapParameterName d := by
  unfold markIf; split <;> rfl

theorem markIf_wasPassed (supplied : List String) (d : ParamData) :
    (markIf supplied d).wasPassed
      = (supplied.contains (mapParameterName d) || d.wasPassed) := by
  unfold markIf; split <;> simp_all

/-- With `Nodup` canonical names, `find?` by a member's name returns exactly
that member. -/
theorem find?_name_of_nodup {reg : List ParamData} {d : ParamData}
    (hnames : (reg.map (fun x => x.name)).Nodup) (hd : d ∈ reg) :
    reg.find? (fun x => x.name = d.name) = some d := by
  induction reg with
  | nil => cases hd
  | cons e tl ih =>
    rcases List.mem_cons.mp hd with rfl | hdtl
    · simp [List.find?]
    · have hne : e.name ≠ d.name := by
        intro heq
        have : d.name ∈ tl.map (fun x => x.name) :=
          List.mem_map.mpr ⟨d, hdtl, rfl⟩
        rw [← heq] at this
        exact (List.nodup_cons.mp hnames).1 this
      have := ih (List.nodup_cons.mp hnames).2 hdtl
      simp [List.find?, hne, this]

/-- `metaAndRequired` only returns normally with the registry it was
given. -/
theorem metaAndRequired_ok {r r2 : List ParamData} {s : List String}
    (h : metaAndRequired r s = .ok r2) : r2 = r := by
  unfold metaAndRequired at h
  repeat' split at h
  all_goals simp_all

/-- A normal return of `parseCommandLine` carries the supplied-marked
registry. -/
theorem parseCommandLine_ok_registry {reg regF : List ParamData}
    {args : List String} {parsed : List ParsedOption}
    (hparse : externalParse (optionDefs reg) args = .ok parsed)
    (hret : parseCommandLine reg args = .ok regF) :
    regF = markPassed reg (suppliedNames parsed) := by
  unfold parseCommandLine at hret
  rw [hparse] at hret
  exact metaAndRequired_ok hret

/-!
Claim theorems.
-/

/-- Claim C1.  The claim states that `ParseCommandLine` both marks a
supplied parameter as passed and copies the parsed value into the registry,
so that `GetParam<double>("double")` yields `3.12` after parsing
`["--double", "3.12"]`.  The code marks the parameter but never copies the
value: the `SetParam` dispatch call is commented out
(`parse_command_line.hpp:121-122`), so `GetParam` still returns the
registered default `0.0` — which is not `3.12`.  This theorem evaluates the
embedded `ParseCommandLine` at the failing input from `DoubleParamTest`. -/
theorem claim1_value_never_copied :
    ((parseCommandLine (testBaseParams ++ [doubleTestParam])
        ["--double", "3.12"]).registry?.map
      (fun r => (hasParamE r "double", getParamDouble r "double"))
      = some (.ok true, .ok 0))
    ∧ (0 : ℚ) ≠ 3.12 := by
  refine ⟨by decide, by norm_num⟩

/-- Claim C2.  The claim states that supplying a non-vector valued option
twice is a fatal error naming the offending token (asserted by
`TestDuplicateParam`, `cli_test.cpp:129-146`), while a duplicated boolean
flag is harmless.  The duplicate-detection block is commented out in the
source (`parse_command_line.hpp:67-102`), so the duplicated valued option
`--info` produces no error at all: the run ends in the info meta-option's
successful `exit(0)` printing the general help.  (The duplicated flag is
indeed harmless, second conjunct.) -/
theorem claim2_duplicates_not_rejected :
    parseCommandLine testBaseParams ["--info", "test1", "--info", "test2"]
      = .exit .generalHelp
    ∧ ((parseCommandLine (testBaseParams ++ [testFlagParam])
          ["--test", "--test"]).registry?.map
        (fun r => hasParamE r "test") = some (.ok true)) := by
  refine ⟨by decide, by decide⟩

/-- Claim C3.  After a `ParseCommandLine` run that returns normally,
`HasParam` holds for a registered parameter exactly when that parameter was
supplied on the command line (under its external name or its alias, both of
which the external parse resolves to the external name): the marking loop
(`parse_command_line.hpp:115-123`) sets `wasPassed` for precisely the
supplied options, and parameters start out unmarked. -/
theorem claim3_hasParam_iff_supplied (reg : List ParamData)
    (args : List String) (parsed : List ParsedOption)
    (regF : List ParamData) (d : ParamData)
    (hnames : (reg.map (fun x => x.name)).Nodup)
    (hfresh : ∀ x ∈ reg, x.wasPassed = false)
    (halias : ∀ x ∈ reg, ∀ y ∈ reg, x.shortAlias ≠ y.name)
    (hparse : externalParse (optionDefs reg) args = .ok parsed)
    (hret : parseCommandLine reg args = .ok regF)
    (hd : d ∈ reg) :
    hasParamE regF d.name
      = .ok ((suppliedNames parsed).contains (mapParameterName d)) := by
  obtain rfl := parseCommandLine_ok_registry hparse hret
  have halias2 : (markPassed reg (suppliedNames parsed)).find?
      (fun x => x.shortAlias = d.name && x.shortAlias ≠ "") = none := by
    apply List.find?_eq_none.mpr
    intro x hx
    obtain ⟨y, hy, rfl⟩ := List.mem_map.mp hx
    simp [markIf_alias, halias y hy d hd]
  have hname : (markPassed reg (suppliedNames parsed)).find?
      (fun x => x.name = d.name) = some (markIf (suppliedNames parsed) d) := by
    unfold markPassed
    rw [List.find?_map]
    have hfun : ((fun (x : ParamData) => decide (x.name = d.name)) ∘
        markIf (suppliedNames parsed)) = fun x => decide (x.name = d.name) := by
      funext x
      simp [Function.comp, markIf_name]
    rw [hfun, find?_name_of_nodup hnames hd]
    rfl
  unfold hasParamE resolveParam
  rw [halias2, hname]
  simp [markIf_wasPassed, hfresh d hd]

/-- Witness for claim C3: the `TestBooleanOption` scenario — the flag
`test` is supplied and `HasParam` afterwards reports exactly that. -/
theorem claim3_witness :
    ((testBaseParams ++ [testFlagParam]).map (fun x => x.name)).Nodup
    ∧ (∀ x ∈ testBaseParams ++ [testFlagParam], x.wasPassed = false)
    ∧ (∀ x ∈ testBaseParams ++ [testFlagParam],
        ∀ y ∈ testBaseParams ++ [testFlagParam], x.shortAlias ≠ y.name)
    ∧ externalParse (optionDefs (testBaseParams ++ [testFlagParam]))
        ["--test"] = .ok [⟨"test", []⟩]
    ∧ parseCommandLine (testBaseParams ++ [testFlagParam]) ["--test"]
        = .ok (markPassed (testBaseParams ++ [testFlagParam])
            (suppliedNames [⟨"test", []⟩]))
    ∧ testFlagParam ∈ testBaseParams ++ [testFlagParam]
    ∧ hasParamE (markPassed (testBaseParams ++ [testFlagParam])
          (suppliedNames [⟨"test", []⟩])) testFlagParam.name
        = .ok ((suppliedNames [⟨"test", []⟩]).contains
            (mapParameterName testFlagParam)) :=
  ⟨by decide, by decide, by decide, by decide, by decide, by decide,
   claim3_hasParam_iff_supplied (testBaseParams ++ [testFlagParam]) ["--test"]
     [⟨"test", []⟩]
     (markPassed (testBaseParams ++ [testFlagParam])
       (suppliedNames [⟨"test", []⟩]))
     testFlagParam (by decide) (by decide) (by decide) (by decide) (by decide)
     (by decide)⟩

/-- Claim C4.  After meta-option handling, `ParseCommandLine` returns
normally exactly when every registered required parameter was counted by
the external parse under its external name, and any fatal error it raises
at this stage names a missing required option by its external name
(`parse_command_line.hpp:182-199`). -/
theorem claim4_required_validation (reg : List ParamData)
    (args : List String) (parsed : List ParsedOption) (vb : Bool)
    (hparse : externalParse (optionDefs reg) args = .ok parsed)
    (hv : hasParamE (markPassed reg (suppliedNames parsed)) "version" = .ok false)
    (hh : hasParamE (markPassed reg (suppliedNames parsed)) "help" = .ok false)
    (hi : hasParamE (markPassed reg (suppliedNames parsed)) "info" = .ok false)
    (hvb : hasParamE (markPassed reg (suppliedNames parsed)) "verbose" = .ok vb) :
    (parseCommandLine reg args = .ok (markPassed reg (suppliedNames parsed))
      ↔ ∀ d ∈ reg, d.required = true →
          (suppliedNames parsed).contains (mapParameterName d) = true)
    ∧ (∀ msg, parseCommandLine reg args = .fatal msg →
        ∃ d ∈ reg, d.required = true
          ∧ (suppliedNames parsed).contains (mapParameterName d) = false
          ∧ msg = "Required option --" ++ mapParameterName d
              ++ " is undefined.") := by
  unfold parseCommandLine
  rw [hparse]
  dsimp only
  unfold metaAndRequired
  rw [hv]
  dsimp only
  rw [hh]
  dsimp only
  rw [hi]
  dsimp only
  rw [hvb]
  dsimp only
  cases hfm : firstMissingRequired (markPassed reg (suppliedNames parsed))
      (suppliedNames parsed) with
  | none =>
    have hall : ∀ d ∈ reg, d.required = true →
        (suppliedNames parsed).contains (mapParameterName d) = true := by
      intro d hdreg hdreq
      have hmem : markIf (suppliedNames parsed) d
          ∈ markPassed reg (suppliedNames parsed) :=
        List.mem_map.mpr ⟨d, hdreg, rfl⟩
      have := List.find?_eq_none.mp hfm _ hmem
      simp [markIf_required, markIf_mapName, hdreq] at this
      simpa using this
    exact ⟨iff_of_true rfl hall, fun msg h => by cases h⟩
  | some x =>
    have hx := List.find?_some hfm
    have hxmem := List.mem_of_find?_eq_some hfm
    obtain ⟨y, hy, rfl⟩ := List.mem_map.mp hxmem
    simp [markIf_required, markIf_mapName] at hx
    constructor
    · refine iff_of_false (by simp) ?_
      intro hall
      exact hx.2 (by simpa using hall y hy hx.1)
    · intro msg h
      injection h with h
      refine ⟨y, hy, hx.1, by simpa using hx.2, ?_⟩
      rw [← h, markIf_mapName]

/-- Witness for claim C4: the `RequiredOptionTest` scenario — a required
double parameter and an empty command line. -/
theorem claim4_witness :
    externalParse (optionDefs (testBaseParams ++ [requiredDoubleParam])) []
      = .ok []
    ∧ hasParamE (markPassed (testBaseParams ++ [requiredDoubleParam])
        (suppliedNames [])) "version" = .ok false
    ∧ hasParamE (markPassed (testBaseParams ++ [requiredDoubleParam])
        (suppliedNames [])) "help" = .ok false
    ∧ hasParamE (markPassed (testBaseParams ++ [requiredDoubleParam])
        (suppliedNames [])) "info" = .ok false
    ∧ hasParamE (markPassed (testBaseParams ++ [requiredDoubleParam])
        (suppliedNames [])) "verbose" = .ok false
    ∧ ((parseCommandLine (testBaseParams ++ [requiredDoubleParam]) []
          = .ok (markPassed (testBaseParams ++ [requiredDoubleParam])
              (suppliedNames []))
        ↔ ∀ d ∈ testBaseParams ++ [requiredDoubleParam], d.required = true →
            (suppliedNames []).contains (mapParameterName d) = true)
      ∧ (∀ msg,
          parseCommandLine (testBaseParams ++ [requiredDoubleParam]) []
            = .fatal msg →
          ∃ d ∈ testBaseParams ++ [requiredDoubleParam], d.required = true
            ∧ (suppliedNames []).contains (mapParameterName d) = false
            ∧ msg = "Required option --" ++ mapParameterName d
                ++ " is undefined.")) :=
  ⟨by decide, by decide, by decide, by decide, by decide,
   claim4_required_validation (testBaseParams ++ [requiredDoubleParam]) []
     [] false (by decide) (by decide) (by decide) (by decide) (by decide)⟩

/-- Claim C5.  The built-in meta-options are handled in strict priority
order (`parse_command_line.hpp:134-170`): a passed `version` prints the
program name and library version and terminates successfully regardless of
`help` and `info`; otherwise a passed `help` prints the general help and
terminates successfully; otherwise a passed `info` terminates successfully
printing the detailed help for the parameter named by the info value when
that value is non-empty, or the general help when it is empty. -/
theorem claim5_meta_option_priority (reg : List ParamData)
    (args : List String) (parsed : List ParsedOption)
    (hparse : externalParse (optionDefs reg) args = .ok parsed) :
    (hasParamE (markPassed reg (suppliedNames parsed)) "version" = .ok true →
      parseCommandLine reg args = .exit .versionInfo)
    ∧ (hasParamE (markPassed reg (suppliedNames parsed)) "version" = .ok false →
       hasParamE (markPassed reg (suppliedNames parsed)) "help" = .ok true →
      parseCommandLine reg args = .exit .generalHelp)
    ∧ (∀ s,
       hasParamE (markPassed reg (suppliedNames parsed)) "version" = .ok false →
       hasParamE (markPassed reg (suppliedNames parsed)) "help" = .ok false →
       hasParamE (markPassed reg (suppliedNames parsed)) "info" = .ok true →
       getParamString (markPassed reg (suppliedNames parsed)) "info" = .ok s →
      parseCommandLine reg args
        = .exit (if s = "" then .generalHelp else .paramHelp s)) := by
  unfold parseCommandLine
  rw [hparse]
  dsimp only
  refine ⟨?_, ?_, ?_⟩
  · intro h1
    unfold metaAndRequired
    rw [h1]
  · intro h1 h2
    unfold metaAndRequired
    rw [h1]
    dsimp only
    rw [h2]
  · intro s h1 h2 h3 h4
    unfold metaAndRequired
    rw [h1]
    dsimp only
    rw [h2]
    dsimp only
    rw [h3]
    dsimp only
    rw [h4]
    by_cases hs : s = "" <;> simp [hs]

/-- Witness for claim C5: both `--version` and `--help` supplied — the run
terminates successfully printing the version, i.e. `version` wins. -/
theorem claim5_witness :
    externalParse (optionDefs testBaseParams) ["--version", "--help"]
      = .ok [⟨"version", []⟩, ⟨"help", []⟩]
    ∧ hasParamE (markPassed testBaseParams
        (suppliedNames [⟨"version", []⟩, ⟨"help", []⟩])) "version" = .ok true
    ∧ parseCommandLine testBaseParams ["--version", "--help"]
        = .exit .versionInfo :=
  ⟨by decide, by decide,
   (claim5_meta_option_priority testBaseParams ["--version", "--help"]
      [⟨"version", []⟩, ⟨"help", []⟩] (by decide)).1 (by decide)⟩

/-- Claim C6.  Every parse error of the external argument-parsing library
is caught inside `ParseCommandLine` and converted into a fatal, user-visible
error (`parse_command_line.hpp:104-109`); the outcome is the `Log::Fatal`
one, never a typed recoverable error returned to the caller. -/
theorem claim6_parse_errors_are_fatal (reg : List ParamData)
    (args : List String) (e : String)
    (h : externalParse (optionDefs reg) args = .error e) :
    parseCommandLine reg args
      = .fatal ("Caught exception from parsing command line: " ++ e) := by
  unfold parseCommandLine
  rw [h]

/-- Witness for claim C6: the `UnknownOptionTest` scenario — parsing
`["--unknown"]` against the test registry is a parse error and ends
fatally. -/
theorem claim6_witness :
    externalParse (optionDefs testBaseParams) ["--unknown"]
      = .error "The following argument was not expected: --unknown"
    ∧ parseCommandLine testBaseParams ["--unknown"]
      = .fatal ("Caught exception from parsing command line: "
          ++ "The following argument was not expected: --unknown") :=
  ⟨by decide, claim6_parse_errors_are_fatal testBaseParams ["--unknown"]
      "The following argument was not expected: --unknown" (by decide)⟩

/-- Claim C7.  The claim states that all four built-in options — `info`,
`verbose`, `version` and `help` — are registered in every program using the
CLI binding, so `--help` never resolves to an unknown parameter.  The
registration of the `help` flag is commented out in the source
(`parse_command_line.hpp:27`), so the default registry has no `help` entry
and parsing `["--help"]` against it is an unknown-option parse error that
ends fatally instead of printing the general help. -/
theorem claim7_help_not_registered :
    defaultParams.find? (fun d => d.name = "help") = none
    ∧ parseCommandLine defaultParams ["--help"]
      = .fatal ("Caught exception from parsing command line: "
          ++ "The following argument was not expected: --help") := by
  refine ⟨by decide, by decide⟩

/-- Claim C8.  The claim states that for every element type, an input
passing the dimension check ends with the images matrix resized to
`newWidth * newHeight * channels` rows (non-empty when the input was
non-empty).  For `eT = float` the resized data is written to
`resizedFloatImages`, which is then discarded: line 133 of
`image_resize_crop.hpp` unconditionally moves the never-sized
`resizedImages` into `images`, so a non-empty float image comes out as the
empty `0 x 0` matrix (while `info` is still updated to the new width and
height). -/
theorem claim8_float_resize_result_discarded :
    (MatDims.mk 4 1).n_elem ≠ 0
    ∧ resizeImages .float ⟨4, 1⟩ ⟨2, 2, 1⟩ 1 1 = .ok ⟨0, 0⟩ ⟨1, 1, 1⟩ false
    ∧ (MatDims.mk 0 0).n_elem = 0
    ∧ (MatDims.mk 0 0).n_rows ≠ 1 * 1 * 1 := by
  refine ⟨by decide, by decide, by decide, by decide⟩

/-- Claim C9.  The claim states that the `stbir_pixel_layout` local is
always initialized before the per-column resize loop reads it, i.e. that
every input reaching the loop has 1 or 3 channels.  A 4-channel (RGBA)
image with matching dimensions passes the dimension check
(`2 * 2 * 4 = 16` pixels, one column), reaches the loop, and the layout
local is never assigned (`image_resize_crop.hpp:80-88` assigns it only for
1 or 3 channels), so the loop reads it uninitialized. -/
theorem claim9_pixel_layout_uninitialized :
    pixelLayoutFor 4 = none
    ∧ resizeImages .uchar ⟨16, 1⟩ ⟨2, 2, 4⟩ 1 1 = .ok ⟨4, 1⟩ ⟨1, 1, 4⟩ true := by
  refine ⟨by decide, by decide⟩

/-- Claim C10.  The `linear_regression_predict` binding fatals exactly when
the test matrix's row count differs from the model's coefficient count
minus one (`linear_regression_predict_main.cpp:97-104`); on matching
dimensions it stores one predicted response per test column and leaves the
model unchanged. -/
theorem claim10_predict_dimension_check (lr : LRModel) (test : TestMatrix)
    (_hne : 1 ≤ lr.parameters.length) :
    ((∃ msg, lrPredictBinding lr test = .error msg)
      ↔ lr.parameters.length - 1 ≠ test.n_rows)
    ∧ (∀ lr2 preds, lrPredictBinding lr test = .ok (lr2, preds) →
        lr2 = lr ∧ preds.length = test.cols.length) := by
  unfold lrPredictBinding
  by_cases hc : lr.parameters.length - 1 ≠ test.n_rows
  · rw [if_pos hc]
    refine ⟨iff_of_true ⟨_, rfl⟩ hc, ?_⟩
    intro lr2 preds h
    cases h
  · rw [if_neg hc]
    constructor
    · refine iff_of_false ?_ hc
      rintro ⟨msg, hmsg⟩
      cases hmsg
    · intro lr2 preds h
      injection h with h
      injection h with h1 h2
      exact ⟨h1.symm, by rw [← h2, List.length_map]⟩

/-- Witness for claim C10: a model trained on one dimension
(`Parameters() = [1, 2]`) against a one-dimensional test matrix with two
columns. -/
theorem claim10_witness :
    1 ≤ (LRModel.mk [1, 2]).parameters.length
    ∧ (((∃ msg, lrPredictBinding ⟨[1, 2]⟩ ⟨1, [[10], [20]]⟩ = .error msg)
        ↔ (LRModel.mk [1, 2]).parameters.length - 1
            ≠ (TestMatrix.mk 1 [[10], [20]]).n_rows)
      ∧ (∀ lr2 preds,
          lrPredictBinding ⟨[1, 2]⟩ ⟨1, [[10], [20]]⟩ = .ok (lr2, preds) →
          lr2 = LRModel.mk [1, 2]
            ∧ preds.length = (TestMatrix.mk 1 [[10], [20]]).cols.length)) :=
  ⟨by decide, claim10_predict_dimension_check ⟨[1, 2]⟩ ⟨1, [[10], [20]]⟩ (by decide)⟩

end Mlpack
